import Mathlib

/-!
Verification of the connection-lifecycle state machine and reconnection
controller of the elexart WhatsApp bridge service.

The repository contains several near-duplicate evolutions of one service.
Two of them decide the claims below and are embedded here:

* the keep-alive variant (the one with `getReconnectDelay`,
  `MAX_RECONNECT_ATTEMPTS = 15`, `BASE_RECONNECT_DELAY = 3000` and a
  300000 ms cool-down), embedded as `KAState` / `handleCloseKA`;
* the guarded variant (the one with the `isConnecting` flag, the
  per-reason disconnect taxonomy, `pendingMessages` bounded at 100 and
  the `/status` endpoint reporting `qr_age_seconds` / `qr_valid`),
  embedded as `GuardState` / `handleCloseGuard` and friends;
* the MongoDB credential store (`useMongoDBAuthState` with `writeData`
  and `readData`) of the first variant.

Timers (`setTimeout`) are modelled by returning the scheduled callback
and its delay as data; the single-threaded event-loop semantics of the
source lets each event handler be embedded as a pure state transformer.
-/

namespace ElexartWA

/-- Numeric disconnect reason codes. These values come from the external
client library (`DisconnectReason` enum of baileys); the source compares
`lastDisconnect.error.output.statusCode` against them. -/
def DR_loggedOut : Nat := 401

/-- Disconnect reason: connection timed out (external library value). -/
def DR_timedOut : Nat := 408

/-- Disconnect reason: another client took over the session (external
library value). -/
def DR_connectionReplaced : Nat := 440

/-- Disconnect reason: network-mandated restart. The guarded variant
compares against the literal `515`. -/
def DR_restartRequired : Nat := 515

/-- Disconnect reason: multi-device mismatch (external library value). -/
def DR_multideviceMismatch : Nat := 411

/-- The values taken by the module-level `connectionStatus` string. -/
inductive ConnStatus where
  | initializing
  | waiting_scan
  | connecting
  | connected
  | disconnected
  | replaced
  | reconnecting
  | error
deriving DecidableEq

/-! ## Backoff policy (keep-alive variant) -/

/-- `const MAX_RECONNECT_ATTEMPTS = 15`. -/
def MAX_RECONNECT_ATTEMPTS : Nat := 15

/-- `const BASE_RECONNECT_DELAY = 3000`. -/
def BASE_RECONNECT_DELAY : Nat := 3000

/-- `function getReconnectDelay() { return Math.min(BASE_RECONNECT_DELAY *
Math.pow(2, reconnectAttempts), 120000); }` — embedded as a function of
the module-level `reconnectAttempts` counter it reads. -/
def getReconnectDelay (reconnectAttempts : Nat) : Nat :=
  min (BASE_RECONNECT_DELAY * 2 ^ reconnectAttempts) 120000

/-- The backoff formula as the spec words it:
`backoffDelay(n) = min(baseDelay * 2^n, capDelay)`. -/
def backoffDelaySpec (base cap n : Nat) : Nat :=
  min (base * 2 ^ n) cap

/-! ## Keep-alive variant state and close handler -/

/-- Module-level mutable state of the keep-alive variant that the
`connection.update` close branch touches: `connectionStatus`, `qrCode`,
`qrCodeBase64`, `connectedUser`, the keep-alive interval timer and
`reconnectAttempts`.  The keep-alive timer is modelled by whether it is
currently installed. -/
structure KAState where
  connectionStatus : ConnStatus
  qrCode : Option String
  qrCodeBase64 : Option String
  connectedUser : Option String
  keepAliveOn : Bool
  reconnectAttempts : Nat
deriving DecidableEq

/-- A callback the keep-alive variant hands to `setTimeout` in its close
branch: either `setTimeout(initWhatsApp, delay)` or the cool-down
`setTimeout(() => { reconnectAttempts = 0; initWhatsApp(); }, 300000)`. -/
inductive ScheduledKA where
  | retryInit (delayMs : Nat)
  | cooldownResetInit (delayMs : Nat)
deriving DecidableEq

/-- `function stopKeepAlive() { if (keepAliveInterval)
{ clearInterval(keepAliveInterval); keepAliveInterval = null; } }`. -/
def stopKeepAlive (s : KAState) : KAState :=
  { s with keepAliveOn := false }

/-- The `connection === 'close'` branch of the keep-alive variant:
clear status fields, stop the keep-alive timer, and unless the reason is
`loggedOut` increment `reconnectAttempts` and schedule either a backoff
retry (while `reconnectAttempts <= MAX_RECONNECT_ATTEMPTS` after the
increment) or the 300000 ms cool-down.  Returns the new state together
with the scheduled callback, if any. -/
def handleCloseKA (s : KAState) (statusCode : Option Nat) :
    KAState × Option ScheduledKA :=
  let s1 := stopKeepAlive
    { s with connectionStatus := .disconnected, qrCode := none,
             qrCodeBase64 := none, connectedUser := none }
  if statusCode ≠ some DR_loggedOut then
    let attempts := s.reconnectAttempts + 1
    if attempts ≤ MAX_RECONNECT_ATTEMPTS then
      ({ s1 with reconnectAttempts := attempts,
                 connectionStatus := .reconnecting },
       some (.retryInit (getReconnectDelay attempts)))
    else
      ({ s1 with reconnectAttempts := attempts,
                 connectionStatus := .error },
       some (.cooldownResetInit 300000))
  else
    (s1, none)

/-- The body of the cool-down callback
`() => { reconnectAttempts = 0; initWhatsApp(); }`.  The boolean records
that `initWhatsApp` is invoked unconditionally by the callback. -/
def fireCooldownReset (s : KAState) : KAState × Bool :=
  ({ s with reconnectAttempts := 0 }, true)

/-- The initial module-level state of the keep-alive variant:
disconnected, no QR, no user, no keep-alive timer,
`reconnectAttempts = 0`. -/
def kaState0 : KAState :=
  { connectionStatus := .disconnected
    qrCode := none
    qrCodeBase64 := none
    connectedUser := none
    keepAliveOn := false
    reconnectAttempts := 0 }

/-! ## Guarded variant: state, establish-session guard, event handlers -/

/-- `const MAX_PENDING_MESSAGES = 100`. -/
def MAX_PENDING_MESSAGES : Nat := 100

/-- Module-level mutable state of the guarded variant: the `isConnecting`
in-flight guard, `connectionStatus`, `connectedUser`, `qrCode`,
`qrCodeBase64`, `qrGeneratedAt`, `qrAttempts`, and the persisted auth
files (the credential records in the `whatsapp_auth_files` collection
and the auth folder, purged together by `clearAuth`).  The
`constructions` counter counts how many times `makeWASocket` has been
invoked, to state the at-most-one-establishment property. -/
structure GuardState where
  isConnecting : Bool
  connectionStatus : ConnStatus
  connectedUser : Option String
  qrCode : Option String
  qrCodeBase64 : Option String
  qrGeneratedAt : Nat
  qrAttempts : Nat
  authFiles : List (String × String)
  constructions : Nat
deriving DecidableEq

/-- The initial module-level state of the guarded variant: `sock = null`,
`connectionStatus = 'initializing'`, `qrGeneratedAt = 0`,
`qrAttempts = 0`, `isConnecting = false`, no connected user, no QR. -/
def initState : GuardState :=
  { isConnecting := false
    connectionStatus := .initializing
    connectedUser := none
    qrCode := none
    qrCodeBase64 := none
    qrGeneratedAt := 0
    qrAttempts := 0
    authFiles := []
    constructions := 0 }

/-- The synchronous prefix of `initWhatsApp` in the guarded variant:
`if (isConnecting) return;` then `isConnecting = true;
connectionStatus = 'initializing'; qrAttempts = 0;` and the
construction of a fresh socket (`makeWASocket`), counted in
`constructions`. -/
def initWhatsAppStep (s : GuardState) : GuardState :=
  if s.isConnecting then s
  else
    { s with isConnecting := true
             connectionStatus := .initializing
             qrAttempts := 0
             constructions := s.constructions + 1 }

/-- Modelled from the spec: the external pairing-payload renderer
(`QRCode.toDataURL`) is an external collaborator, a pure function from
the raw payload to a displayable image; its output content is opaque to
the controller. -/
def renderQR (qr : String) : String := qr

/-- The `if (qr)` branch of the guarded variant's `connection.update`
handler: `qrAttempts++; qrCode = qr; qrGeneratedAt = Date.now();
qrCodeBase64 = await QRCode.toDataURL(qr, ...);
connectionStatus = 'waiting_scan';`. -/
def handleQrGuard (s : GuardState) (qr : String) (now : Nat) : GuardState :=
  { s with qrAttempts := s.qrAttempts + 1
           qrCode := some qr
           qrGeneratedAt := now
           qrCodeBase64 := some (renderQR qr)
           connectionStatus := .waiting_scan }

/-- `clearAuth()`: unlink every file in the auth folder and
`deleteMany({})` on the `whatsapp_auth_files` collection — a full purge
of the persisted credential records. -/
def clearAuth (s : GuardState) : GuardState :=
  { s with authFiles := [] }

/-- The `connection === 'close'` branch of the guarded variant:
`isConnecting = false; connectionStatus = 'disconnected';
connectedUser = null;` followed by the per-reason taxonomy.  The second
component is the delay of the `setTimeout(initWhatsApp, delay)` call the
branch schedules, or `none` when no retry is scheduled. -/
def handleCloseGuard (s : GuardState) (statusCode : Option Nat) :
    GuardState × Option Nat :=
  let s1 := { s with isConnecting := false
                     connectionStatus := .disconnected
                     connectedUser := none }
  if statusCode = some DR_loggedOut then
    ({ clearAuth s1 with qrCode := none, qrCodeBase64 := none,
                         qrAttempts := 0 }, some 5000)
  else if statusCode = some DR_connectionReplaced then
    ({ s1 with connectionStatus := .replaced }, none)
  else if statusCode = some DR_timedOut then
    ({ s1 with qrCode := none, qrCodeBase64 := none }, some 3000)
  else if statusCode = some DR_restartRequired then
    (s1, some 10000)
  else if statusCode = some DR_multideviceMismatch then
    ({ clearAuth s1 with qrCode := none, qrCodeBase64 := none }, some 5000)
  else
    (s1, some (if s1.qrAttempts > 3 then 20000 else 8000))

/-- The `connection === 'open'` branch of the guarded variant:
`isConnecting = false; connectionStatus = 'connected'; qrCode = null;
qrCodeBase64 = null; qrAttempts = 0;` and `connectedUser` is populated
from `sock.user` (opaque here; the source substitutes a default name
when the user object is missing). -/
def handleOpenGuard (s : GuardState) (user : Option String) : GuardState :=
  { s with isConnecting := false
           connectionStatus := .connected
           qrCode := none
           qrCodeBase64 := none
           qrAttempts := 0
           connectedUser := some (user.getD "WhatsApp User") }

/-- The pending-outcome insertion of the `messages.upsert` handler:
`pendingMessages.push(msgData); if (pendingMessages.length >
MAX_PENDING_MESSAGES) { pendingMessages =
pendingMessages.slice(-MAX_PENDING_MESSAGES); }`.  JavaScript
`slice(-N)` on an array longer than `N` keeps the last `N` elements. -/
def pushPending {α : Type} (pendingMessages : List α) (msgData : α) :
    List α :=
  let l := pendingMessages ++ [msgData]
  if l.length > MAX_PENDING_MESSAGES then
    l.drop (l.length - MAX_PENDING_MESSAGES)
  else l

/-- The JSON body produced by the guarded variant's `GET /status`
handler (the fields the claims are about). -/
structure StatusSnapshot where
  status : ConnStatus
  connected : Bool
  qr_attempts : Nat
  qr_age_seconds : Nat
  qr_valid : Bool
deriving DecidableEq

/-- `Math.round(ms / 1000)` for a non-negative millisecond count. -/
def jsRoundDiv1000 (ms : Nat) : Nat := (ms + 500) / 1000

/-- The guarded variant's `GET /status` handler:
`var qrAge = qrGeneratedAt > 0 ? Math.round((now - qrGeneratedAt) / 1000)
: 0;` and the response carries `qr_age_seconds: qrAge` and
`qr_valid: qrAge < 120`. -/
def statusEndpoint (s : GuardState) (now : Nat) : StatusSnapshot :=
  let qrAge := if s.qrGeneratedAt > 0
    then jsRoundDiv1000 (now - s.qrGeneratedAt) else 0
  { status := s.connectionStatus
    connected := decide (s.connectionStatus = .connected)
    qr_attempts := s.qrAttempts
    qr_age_seconds := qrAge
    qr_valid := decide (qrAge < 120) }

/-! ## MongoDB credential store (`useMongoDBAuthState`) -/

/-- The `whatsapp_auth` collection, a key/value map from `_id` to the
stored `data` string.  MongoDB guarantees `_id` uniqueness, so the
collection is a finite map; we embed it as its lookup function. -/
def MongoCollection : Type := String → Option String

/-- A collection with no documents. -/
def emptyCollection : MongoCollection := fun _ => none

/-- `collection.updateOne({ _id: key }, { $set: { data: ... } },
{ upsert: true })`: point overwrite of the document with the given key,
inserting it when absent. -/
def updateOneUpsert (c : MongoCollection) (key val : String) :
    MongoCollection :=
  fun q => if q = key then some val else c q

/-- `collection.findOne({ _id: key })`, returning the stored `data`
string when the document exists. -/
def findOne (c : MongoCollection) (key : String) : Option String :=
  c key

/-- `writeData(key, data)`: store `JSON.stringify(data)` under the key.
The serializer of the external JSON library is passed explicitly. -/
def writeData {α : Type} (stringify : α → String) (c : MongoCollection)
    (key : String) (data : α) : MongoCollection :=
  updateOneUpsert c key (stringify data)

/-- `readData(key)`: fetch the document and return `JSON.parse(doc.data)`
when present, `null` otherwise. -/
def readData {α : Type} (parse : String → Option α) (c : MongoCollection)
    (key : String) : Option α :=
  match findOne c key with
  | some str => parse str
  | none => none

/-- The read `useMongoDBAuthState` performs at construction:
`const creds = await readData('creds')` — the fresh read-back a restart
performs against the persisted backend. -/
def authStateCreds {α : Type} (parse : String → Option α)
    (c : MongoCollection) : Option α :=
  readData parse c "creds"

/-- A concrete serializer for the witness: booleans as JSON literals. -/
def encodeBool (b : Bool) : String := if b then "true" else "false"

/-- A concrete parser for the witness, the partial inverse of
`encodeBool`. -/
def decodeBool (s : String) : Option Bool :=
  if s = "true" then some true
  else if s = "false" then some false
  else none

/-! ## Theorems -/

/-- Claim C1: for every natural number n, the reconnect backoff delay
equals min(baseDelay * 2^n, capDelay) with baseDelay = 3000 and
capDelay = 120000; it is monotonically non-decreasing in n and always
at most the cap. -/
theorem backoff_policy_c1 :
    (∀ n : Nat,
      getReconnectDelay n = backoffDelaySpec BASE_RECONNECT_DELAY 120000 n ∧
      getReconnectDelay n ≤ 120000) ∧
    Monotone getReconnectDelay := by
  refine ⟨fun n => ⟨rfl, min_le_right _ _⟩, ?_⟩
  intro a b hab
  exact min_le_min
    (Nat.mul_le_mul_left _ (Nat.pow_le_pow_right (by norm_num) hab))
    le_rfl

/-- Claim C2: the in-flight guard makes session establishment
at-most-once: a call while the guard is set is a no-op, and two calls in
rapid succession from an unguarded state perform exactly one socket
construction. -/
theorem inflight_guard_c2 (s : GuardState) (h : s.isConnecting = false) :
    initWhatsAppStep (initWhatsAppStep s) = initWhatsAppStep s ∧
    (initWhatsAppStep (initWhatsAppStep s)).constructions =
      s.constructions + 1 ∧
    ∀ t : GuardState, t.isConnecting = true → initWhatsAppStep t = t := by
  refine ⟨?_, ?_, fun t ht => by simp [initWhatsAppStep, ht]⟩ <;>
    simp [initWhatsAppStep, h]

/-- Witness for C2 at the initial state. -/
theorem inflight_guard_c2_witness :
    initState.isConnecting = false ∧
    (initWhatsAppStep (initWhatsAppStep initState) =
        initWhatsAppStep initState ∧
      (initWhatsAppStep (initWhatsAppStep initState)).constructions =
        initState.constructions + 1 ∧
      ∀ t : GuardState, t.isConnecting = true → initWhatsAppStep t = t) :=
  ⟨rfl, inflight_guard_c2 initState rfl⟩

/-- Claim C3: a `connectionReplaced` disconnect sets the phase to
Replaced and schedules no retry, while a close with any other reason
does schedule a reconnect callback. -/
theorem replaced_no_retry_c3 (s : GuardState) (sc : Option Nat)
    (hsc : sc ≠ some DR_connectionReplaced) :
    (handleCloseGuard s (some DR_connectionReplaced)).1.connectionStatus =
      ConnStatus.replaced ∧
    (handleCloseGuard s (some DR_connectionReplaced)).2 = none ∧
    (handleCloseGuard s sc).2.isSome = true := by
  refine ⟨?_, ?_, ?_⟩
  · simp [handleCloseGuard, DR_connectionReplaced, DR_loggedOut]
  · simp [handleCloseGuard, DR_connectionReplaced, DR_loggedOut]
  · simp only [handleCloseGuard]
    split_ifs <;> simp_all

/-- Witness for C3 with a timed-out close. -/
theorem replaced_no_retry_c3_witness :
    (some DR_timedOut ≠ some DR_connectionReplaced) ∧
    ((handleCloseGuard initState
        (some DR_connectionReplaced)).1.connectionStatus =
      ConnStatus.replaced ∧
    (handleCloseGuard initState (some DR_connectionReplaced)).2 = none ∧
    (handleCloseGuard initState (some DR_timedOut)).2.isSome = true) :=
  ⟨by decide, replaced_no_retry_c3 initState (some DR_timedOut) (by decide)⟩

/-- Claim C5: a `loggedOut` disconnect purges all persisted credential
records, clears the pairing payload fields and the pairing sequence, and
schedules a delayed fresh establishment (5000 ms), so a new pairing
cycle is always offered. -/
theorem logged_out_purge_c5 (s : GuardState) :
    (handleCloseGuard s (some DR_loggedOut)).1.authFiles = [] ∧
    (handleCloseGuard s (some DR_loggedOut)).1.qrCode = none ∧
    (handleCloseGuard s (some DR_loggedOut)).1.qrCodeBase64 = none ∧
    (handleCloseGuard s (some DR_loggedOut)).1.qrAttempts = 0 ∧
    (handleCloseGuard s (some DR_loggedOut)).2 = some 5000 := by
  simp [handleCloseGuard, clearAuth]

/-- Claim C8: every close event stops the keep-alive monitor timer
immediately, whatever the close reason and prior state. -/
theorem keepalive_stopped_c8 (s : KAState) (sc : Option Nat) :
    (handleCloseKA s sc).1.keepAliveOn = false := by
  simp only [handleCloseKA, stopKeepAlive]
  split_ifs <;> rfl

/-- Claim C10: when no pairing payload has ever been issued
(`qrGeneratedAt == 0`), the status snapshot reports
`qr_age_seconds == 0` and `qr_valid == true`. -/
theorem status_no_qr_c10 (s : GuardState) (now : Nat)
    (h : s.qrGeneratedAt = 0) :
    (statusEndpoint s now).qr_age_seconds = 0 ∧
    (statusEndpoint s now).qr_valid = true := by
  simp [statusEndpoint, h]

/-- Witness for C10 at the initial state. -/
theorem status_no_qr_c10_witness :
    initState.qrGeneratedAt = 0 ∧
    ((statusEndpoint initState 987654321).qr_age_seconds = 0 ∧
      (statusEndpoint initState 987654321).qr_valid = true) :=
  ⟨rfl, status_no_qr_c10 initState 987654321 rfl⟩

/-- Claim C4: for a disconnect whose reason is none of loggedOut,
connectionReplaced and restartRequired, the close handler increments
`reconnectAttempts`; while the prior attempt count is under the ceiling
it schedules a retry after `backoffDelay` of the incremented count; at
or over the ceiling it sets the phase to Error and schedules the single
300000 ms cool-down, whose callback unconditionally resets
`reconnectAttempts` to 0 and re-invokes establishment. -/
theorem generic_disconnect_backoff_c4 (s : KAState) (sc : Option Nat)
    (h1 : sc ≠ some DR_loggedOut) (_h2 : sc ≠ some DR_connectionReplaced)
    (_h3 : sc ≠ some DR_restartRequired) :
    (handleCloseKA s sc).1.reconnectAttempts = s.reconnectAttempts + 1 ∧
    (s.reconnectAttempts < MAX_RECONNECT_ATTEMPTS →
      (handleCloseKA s sc).2 =
        some (ScheduledKA.retryInit
          (getReconnectDelay (s.reconnectAttempts + 1))) ∧
      (handleCloseKA s sc).1.connectionStatus = ConnStatus.reconnecting) ∧
    (MAX_RECONNECT_ATTEMPTS ≤ s.reconnectAttempts →
      (handleCloseKA s sc).1.connectionStatus = ConnStatus.error ∧
      (handleCloseKA s sc).2 =
        some (ScheduledKA.cooldownResetInit 300000)) ∧
    (∀ t : KAState,
      (fireCooldownReset t).1.reconnectAttempts = 0 ∧
      (fireCooldownReset t).2 = true) := by
  refine ⟨?_, ?_, ?_, fun t => ⟨rfl, rfl⟩⟩ <;>
    simp only [handleCloseKA, stopKeepAlive, if_pos h1]
  · split_ifs <;> rfl
  · intro hlt
    rw [if_pos (show s.reconnectAttempts + 1 ≤ MAX_RECONNECT_ATTEMPTS from hlt)]
    exact ⟨rfl, rfl⟩
  · intro hge
    rw [if_neg (by omega : ¬ s.reconnectAttempts + 1 ≤ MAX_RECONNECT_ATTEMPTS)]
    exact ⟨rfl, rfl⟩

/-- Witness for C4: a generic close (connection closed, code 428) from a
fresh keep-alive state. -/
theorem generic_disconnect_backoff_c4_witness :
    (some 428 ≠ some DR_loggedOut) ∧
    (some 428 ≠ some DR_connectionReplaced) ∧
    (some 428 ≠ some DR_restartRequired) ∧
    ((handleCloseKA kaState0 (some 428)).1.reconnectAttempts =
        kaState0.reconnectAttempts + 1 ∧
      (kaState0.reconnectAttempts < MAX_RECONNECT_ATTEMPTS →
        (handleCloseKA kaState0 (some 428)).2 =
          some (ScheduledKA.retryInit
            (getReconnectDelay (kaState0.reconnectAttempts + 1))) ∧
        (handleCloseKA kaState0 (some 428)).1.connectionStatus =
          ConnStatus.reconnecting) ∧
      (MAX_RECONNECT_ATTEMPTS ≤ kaState0.reconnectAttempts →
        (handleCloseKA kaState0 (some 428)).1.connectionStatus =
          ConnStatus.error ∧
        (handleCloseKA kaState0 (some 428)).2 =
          some (ScheduledKA.cooldownResetInit 300000)) ∧
      ∀ t : KAState,
        (fireCooldownReset t).1.reconnectAttempts = 0 ∧
        (fireCooldownReset t).2 = true) :=
  ⟨by decide, by decide, by decide,
    generic_disconnect_backoff_c4 kaState0 (some 428)
      (by decide) (by decide) (by decide)⟩

/-- Counterexample for C6: starting from the initial state, a pairing
event followed by a restart-required close leaves the pairing payload
set while the phase is Disconnected, so the payload is not non-null
only in the AwaitingPairing phase and this close transition did not
clear it. -/
theorem pairing_invariant_c6_counterexample :
    (handleCloseGuard (handleQrGuard initState "XYZ" 1000)
        (some DR_restartRequired)).1.qrCode = some "XYZ" ∧
    (handleCloseGuard (handleQrGuard initState "XYZ" 1000)
        (some DR_restartRequired)).1.connectionStatus =
      ConnStatus.disconnected := by
  constructor <;> rfl

/-- Claim C6 as amended: a connection-open transition always clears the
pairing payload; a close transition clears it in the guarded variant
exactly for the loggedOut, timedOut and multideviceMismatch reasons
(leaving it intact for connectionReplaced, restartRequired and generic
reasons), while the keep-alive variant's close handler clears it on
every close. -/
theorem pairing_invariant_c6_amended (s : GuardState) (sc : Option Nat)
    (u : Option String) (m : KAState) (sc2 : Option Nat) :
    (handleOpenGuard s u).qrCode = none ∧
    (handleCloseGuard s sc).1.qrCode =
      (if sc = some DR_loggedOut ∨ sc = some DR_timedOut ∨
          sc = some DR_multideviceMismatch
       then none else s.qrCode) ∧
    (handleCloseKA m sc2).1.qrCode = none := by
  refine ⟨rfl, ?_, ?_⟩
  · simp only [handleCloseGuard, clearAuth]
    split_ifs <;>
      simp_all [DR_loggedOut, DR_timedOut, DR_connectionReplaced,
        DR_restartRequired, DR_multideviceMismatch]
  · simp only [handleCloseKA, stopKeepAlive]
    split_ifs <;> rfl

/-- One pending-outcome insertion always equals dropping down to the last
`MAX_PENDING_MESSAGES` elements of the extended buffer. -/
theorem pushPending_eq_drop {α : Type} (buf : List α) (m : α) :
    pushPending buf m =
      (buf ++ [m]).drop ((buf ++ [m]).length - MAX_PENDING_MESSAGES) := by
  simp only [pushPending]
  split_ifs with hgt
  · rfl
  · rw [Nat.sub_eq_zero_of_le (Nat.le_of_not_lt hgt), List.drop_zero]

/-- A pending-outcome insertion keeps the buffer within capacity. -/
theorem pushPending_length_le {α : Type} (buf : List α) (m : α) :
    (pushPending buf m).length ≤ MAX_PENDING_MESSAGES := by
  rw [pushPending_eq_drop buf m, List.length_drop]
  omega

/-- Folding pending-outcome insertions over any message sequence from a
within-capacity buffer retains exactly the most recent
`MAX_PENDING_MESSAGES` elements. -/
theorem foldl_pushPending_eq_drop {α : Type} (msgs : List α)
    (buf : List α) (h : buf.length ≤ MAX_PENDING_MESSAGES) :
    List.foldl pushPending buf msgs =
      (buf ++ msgs).drop ((buf ++ msgs).length - MAX_PENDING_MESSAGES) := by
  induction msgs generalizing buf with
  | nil => simp [Nat.sub_eq_zero_of_le h]
  | cons m ms ih =>
    rw [List.foldl_cons, ih _ (pushPending_length_le buf m),
      pushPending_eq_drop buf m]
    have hd : (buf ++ [m]).length - MAX_PENDING_MESSAGES ≤
        (buf ++ [m]).length := Nat.sub_le _ _
    rw [← List.drop_append_of_le_length hd, List.drop_drop]
    have happ : buf ++ [m] ++ ms = buf ++ m :: ms := by
      simp
    rw [happ]
    have hcongr : ∀ i j : Nat, i = j →
        (buf ++ m :: ms).drop i = (buf ++ m :: ms).drop j :=
      fun i j hij => by rw [hij]
    apply hcongr
    simp only [List.length_drop, List.length_append, List.length_cons,
      List.length_singleton, List.length_nil]
    omega

/-- Claim C7: the pending-outcome buffer is bounded at capacity 100 with
FIFO eviction — inserting 105 entries into an initially empty buffer
leaves exactly the most recent 100 entries, evicting the 5 oldest. -/
theorem ring_buffer_c7 {α : Type} (msgs : List α)
    (h : msgs.length = MAX_PENDING_MESSAGES + 5) :
    List.foldl pushPending ([] : List α) msgs = msgs.drop 5 := by
  have hfold := foldl_pushPending_eq_drop msgs ([] : List α)
    (by simp [MAX_PENDING_MESSAGES])
  simpa [h, MAX_PENDING_MESSAGES] using hfold

/-- Witness for C7 on the concrete sequence 0, 1, ..., 104. -/
theorem ring_buffer_c7_witness :
    (List.range (MAX_PENDING_MESSAGES + 5)).length =
      MAX_PENDING_MESSAGES + 5 ∧
    List.foldl pushPending ([] : List Nat)
        (List.range (MAX_PENDING_MESSAGES + 5)) =
      (List.range (MAX_PENDING_MESSAGES + 5)).drop 5 :=
  ⟨by simp, ring_buffer_c7 _ (by simp)⟩

/-- Claim C9: writing a credential record through the store and reading
it back yields the identical payload, both directly and through the
fresh `readAll` a restarted `useMongoDBAuthState` performs, given that
the external JSON serializer round-trips. -/
theorem credential_roundtrip_c9 {α : Type} (stringify : α → String)
    (parse : String → Option α)
    (hround : ∀ a, parse (stringify a) = some a)
    (c : MongoCollection) (key : String) (data : α) :
    readData parse (writeData stringify c key data) key = some data ∧
    authStateCreds parse (writeData stringify c "creds" data) =
      some data := by
  constructor <;>
    simp [readData, writeData, findOne, updateOneUpsert, authStateCreds,
      hround]

/-- Witness for C9 with the boolean JSON codec on an empty collection. -/
theorem credential_roundtrip_c9_witness :
    (∀ a : Bool, decodeBool (encodeBool a) = some a) ∧
    (readData decodeBool
        (writeData encodeBool emptyCollection "creds" true) "creds" =
      some true ∧
    authStateCreds decodeBool
        (writeData encodeBool emptyCollection "creds" true) =
      some true) :=
  ⟨fun a => by cases a <;> rfl,
    credential_roundtrip_c9 encodeBool decodeBool
      (fun a => by cases a <;> rfl) emptyCollection "creds" true⟩

end ElexartWA
